import Mathlib

/-!
# BlueShield Pro — formal model of the transactional order pipeline

A shallow embedding of the data-access layer (`db.js`: schema, `Repository`,
`withTransaction`) and of the checkout transaction body
(`server.js`, `app.post('/api/checkout')`) of the BlueShield Pro store.

Conventions of the embedding:

* Each SQLite table is a Lean list of rows; `INTEGER PRIMARY KEY
  AUTOINCREMENT` columns are modelled with an explicit per-table counter in
  the state (SQLite's `sqlite_sequence`), and an insert assigns the counter
  and bumps it.
* SQLite `REAL` money columns are modelled as `ℚ`; every concrete value the
  code handles (299.00, 269.00, integer quantities) is exact in both.
* Quantity columns (`estoque`, `quantidade`) are modelled as `ℤ`: the
  `CHECK (estoque >= 0)` constraint is a guard in the embedding of the
  statement that writes the column, exactly as SQLite enforces it, so a
  violating `UPDATE` fails instead of persisting.
* `CHECK`/`UNIQUE` constraints of the tables the modelled statements write
  are embedded as guards on those statements (`Except.error` mirrors the
  exception `better-sqlite3` throws).  Columns never touched by any
  modelled operation (payment tracking, shipping dates, login bookkeeping)
  are omitted from the row types.
* Sources of nondeterminism read inside the transaction —
  `crypto.randomUUID()`, `bcrypt.hashSync` of a random password,
  `new Date()` and `Math.random()` inside `generateOrderNumber` — are
  passed in as an explicit environment, so every operation is a pure
  function of state and environment.
* `db.transaction` of better-sqlite3 rolls back every write when the body
  throws; `withTransaction` therefore returns the *original* state when the
  body returns `Except.error`.
* `JSON.stringify` of the flat audit payloads is injective on them; the
  payloads are stored as association lists instead of serialized text.
-/

namespace BlueShield

/-- Order lifecycle status: the `CHECK (status IN (...))` set of
`SCHEMA.pedidos`. -/
inductive Status where
  | pendente
  | aguardando_pagamento
  | pago
  | processando
  | enviado
  | entregue
  | cancelado
  | reembolsado
deriving DecidableEq, Repr

/-- A row of `usuarios` (columns the modelled operations touch). -/
structure Usuario where
  id : Nat
  uuid : String
  nome : String
  email : String
  cpf : String
  senha_hash : String
  telefone : String
  deletado_em : Option Nat
deriving DecidableEq, Repr

/-- A row of `enderecos`. -/
structure Endereco where
  id : Nat
  usuario_id : Nat
  cep : String
  logradouro : String
  numero : String
  complemento : Option String
  bairro : String
  cidade : String
  estado : String
  tipo : String
  padrao : Bool
  deletado_em : Option Nat
deriving DecidableEq, Repr

/-- A row of `produtos`. -/
structure Produto where
  id : Nat
  sku : String
  nome : String
  descricao : Option String
  preco_unitario : ℚ
  estoque : ℤ
  ativo : Bool
  deletado_em : Option Nat
deriving DecidableEq, Repr

/-- A row of `pedidos` (columns the modelled operations touch; the
untouched payment/shipping columns default to `NULL`). -/
structure Pedido where
  id : Nat
  numero_pedido : String
  usuario_id : Nat
  endereco_id : Nat
  subtotal : ℚ
  frete : ℚ
  desconto : ℚ
  total : ℚ
  status : Status
  metodo_pagamento : Option String
  observacoes_cliente : Option String
deriving DecidableEq, Repr

/-- A row of `pedido_itens`. -/
structure PedidoItem where
  id : Nat
  pedido_id : Nat
  produto_id : Nat
  sku : String
  nome : String
  quantidade : ℤ
  preco_unitario : ℚ
  subtotal : ℚ
  variacao : Option String
deriving DecidableEq, Repr

/-- A row of `pedido_historico`.  `status_anterior` and `status_novo` hold
order statuses; `ip_address`/`user_agent` are the request-context columns of
the schema. -/
structure HistEvent where
  id : Nat
  pedido_id : Nat
  status_anterior : Option Status
  status_novo : Status
  observacao : Option String
  usuario_responsavel_id : Option Nat
  ip_address : Option String
  user_agent : Option String
deriving DecidableEq, Repr

/-- A row of `audit_logs`.  The `dados_anteriores`/`dados_novos` JSON
payloads are kept as the flat association lists the code passes to
`JSON.stringify`. -/
structure AuditLog where
  id : Nat
  uuid : String
  tabela : String
  registro_id : Option Nat
  acao : String
  dados_anteriores : Option (List (String × String))
  dados_novos : Option (List (String × String))
  usuario_id : Option Nat
  ip_address : Option String
  user_agent : Option String
  endpoint : Option String
  metodo_http : Option String
deriving DecidableEq, Repr

/-- The database: one list per table plus the `AUTOINCREMENT` counters. -/
structure DBState where
  usuarios : List Usuario
  enderecos : List Endereco
  produtos : List Produto
  pedidos : List Pedido
  pedido_itens : List PedidoItem
  pedido_historico : List HistEvent
  audit_logs : List AuditLog
  nextUsuarioId : Nat
  nextEnderecoId : Nat
  nextProdutoId : Nat
  nextPedidoId : Nat
  nextItemId : Nat
  nextHistId : Nat
  nextAuditId : Nat
deriving DecidableEq, Repr

/-! ## Helper functions of `db.js` -/

/-- `String.prototype.replace(/\D/g, '')` — keep only the ASCII digits.
Applied by the checkout route to `cpf` and `cep`. -/
def cleanDigits (s : String) : String :=
  String.mk (s.data.filter Char.isDigit)

/-- `String.prototype.toLowerCase()`, as the character-wise ASCII case map
(the emails the route handles are ASCII). -/
def toLowerStr (s : String) : String :=
  String.mk (s.data.map Char.toLower)

/-- `String.prototype.toUpperCase()`, character-wise. -/
def toUpperStr (s : String) : String :=
  String.mk (s.data.map Char.toUpper)

/-- `String.prototype.trim()` — strip whitespace from both ends. -/
def trimStr (s : String) : String :=
  String.mk
    (((s.data.dropWhile Char.isWhitespace).reverse.dropWhile
      Char.isWhitespace).reverse)

/-- The character of a decimal digit, as `toISOString` prints it. -/
def digitChar (n : Nat) : Char :=
  Char.ofNat (48 + n % 10)

/-- Four decimal digits, most significant first (the year field of
`toISOString`, which zero-pads to four digits). -/
def pad4 (n : Nat) : List Char :=
  [digitChar (n / 1000), digitChar (n / 100), digitChar (n / 10), digitChar n]

/-- Two decimal digits (the month/day fields of `toISOString`). -/
def pad2 (n : Nat) : List Char :=
  [digitChar (n / 10), digitChar n]

/-- `date.toISOString().slice(0, 10)`: the `"YYYY-MM-DD"` prefix of the ISO
timestamp of a date whose UTC year/month/day are `y`/`m`/`d`. -/
def isoDateSlice (y m d : Nat) : String :=
  String.mk (pad4 y ++ '-' :: (pad2 m ++ '-' :: pad2 d))

/-- The `.replace` step of `generateOrderNumber` (global regex replace of
the dash by the empty string) — remove every dash. -/
def stripDashes (s : String) : String :=
  String.mk (s.data.filter fun c => !(c == '-'))

/-- `generateOrderNumber` of `db.js`:
`BSP-` + the dash-stripped `date.toISOString().slice(0, 10)` + `-` +
`Math.floor(1000 + Math.random() * 9000)`.  The date parts and the
`Math.random()` draw `r` (a real in `[0, 1)`, modelled in `ℚ`) are the
explicit nondeterminism parameters. -/
def generateOrderNumber (y m d : Nat) (r : ℚ) : String :=
  let dateStr := stripDashes (isoDateSlice y m d)
  let random : ℤ := ⌊(1000 : ℚ) + r * 9000⌋
  "BSP-" ++ dateStr ++ "-" ++ toString random

/-! ## Repository methods (`class Repository` of `db.js`) -/

/-- `getUserByEmail(email)` (default `incluirDeletados = false`, the only
call mode the modelled routes use): first row of `usuarios` with a
*verbatim* `email` match and `deletado_em IS NULL`. -/
def getUserByEmail (s : DBState) (email : String) : Option Usuario :=
  s.usuarios.find? fun u => u.email == email && u.deletado_em.isNone

/-- `getUserByCPF(cpf)` (default `incluirDeletados = false`). -/
def getUserByCPF (s : DBState) (cpf : String) : Option Usuario :=
  s.usuarios.find? fun u => u.cpf == cpf && u.deletado_em.isNone

/-- `getUserById(id)` (default `incluirDeletados = false`). -/
def getUserById (s : DBState) (id : Nat) : Option Usuario :=
  s.usuarios.find? fun u => u.id == id && u.deletado_em.isNone

/-- The column values `createUser` receives. -/
structure NewUser where
  nome : String
  email : String
  cpf : String
  senha_hash : String
  telefone : String
deriving DecidableEq, Repr

/-- `createUser(dados)`: `INSERT INTO usuarios (uuid, nome, email, cpf,
senha_hash, telefone) VALUES (...)`.  The generated `crypto.randomUUID()`
is the `uuid` parameter.  The `UNIQUE` constraints on `email` and `cpf`
range over *all* rows (soft-deleted included); their violation throws. -/
def createUser (s : DBState) (dados : NewUser) (uuid : String) :
    Except String (DBState × Nat) :=
  if ∀ v ∈ s.usuarios, v.email ≠ dados.email ∧ v.cpf ≠ dados.cpf then
    let id := s.nextUsuarioId
    .ok ({ s with
            usuarios := s.usuarios ++
              [{ id := id, uuid := uuid, nome := dados.nome,
                 email := dados.email, cpf := dados.cpf,
                 senha_hash := dados.senha_hash, telefone := dados.telefone,
                 deletado_em := none }],
            nextUsuarioId := id + 1 }, id)
  else
    .error "UNIQUE constraint failed: usuarios"

/-- The column values `createAddress` receives. -/
structure NewAddress where
  usuario_id : Nat
  cep : String
  logradouro : String
  numero : String
  complemento : Option String
  bairro : String
  cidade : String
  estado : String
  tipo : String
  padrao : Bool
deriving DecidableEq, Repr

/-- `createAddress(dados)`: when `padrao` is truthy, first
`UPDATE enderecos SET padrao = 0 WHERE usuario_id = ?` (note: *every* row of
that user, with no `deletado_em` filter), then `INSERT` the new row. -/
def createAddress (s : DBState) (dados : NewAddress) : DBState × Nat :=
  let s :=
    if dados.padrao then
      { s with enderecos := s.enderecos.map fun e =>
          if e.usuario_id = dados.usuario_id then { e with padrao := false } else e }
    else s
  let id := s.nextEnderecoId
  ({ s with
      enderecos := s.enderecos ++
        [{ id := id, usuario_id := dados.usuario_id, cep := dados.cep,
           logradouro := dados.logradouro, numero := dados.numero,
           complemento := dados.complemento, bairro := dados.bairro,
           cidade := dados.cidade, estado := dados.estado, tipo := dados.tipo,
           padrao := dados.padrao, deletado_em := none }],
      nextEnderecoId := id + 1 }, id)

/-- The column values `createOrder` receives. -/
structure NewOrder where
  usuario_id : Nat
  endereco_id : Nat
  subtotal : ℚ
  frete : ℚ
  desconto : ℚ
  total : ℚ
  metodo_pagamento : Option String
  observacoes_cliente : Option String
deriving DecidableEq, Repr

/-- `createOrder(dados)`: computes `numero_pedido = generateOrderNumber()`
(date/random parameters `y m d r`) and inserts into `pedidos` with the
default status `pendente`.  The guard embeds the table's `CHECK` constraints
on the four money columns and the `UNIQUE` constraint on `numero_pedido`. -/
def createOrder (s : DBState) (dados : NewOrder) (y m d : Nat) (r : ℚ) :
    Except String (DBState × Nat × String) :=
  let numero_pedido := generateOrderNumber y m d r
  if 0 ≤ dados.subtotal ∧ 0 ≤ dados.frete ∧ 0 ≤ dados.desconto ∧
      0 ≤ dados.total ∧ ∀ p ∈ s.pedidos, p.numero_pedido ≠ numero_pedido then
    let id := s.nextPedidoId
    .ok ({ s with
            pedidos := s.pedidos ++
              [{ id := id, numero_pedido := numero_pedido,
                 usuario_id := dados.usuario_id, endereco_id := dados.endereco_id,
                 subtotal := dados.subtotal, frete := dados.frete,
                 desconto := dados.desconto, total := dados.total,
                 status := .pendente, metodo_pagamento := dados.metodo_pagamento,
                 observacoes_cliente := dados.observacoes_cliente }],
            nextPedidoId := id + 1 }, id, numero_pedido)
  else
    .error "constraint failed: pedidos"

/-- The column values `addOrderItem` receives. -/
structure NewItem where
  pedido_id : Nat
  produto_id : Nat
  sku : String
  nome : String
  quantidade : ℤ
  preco_unitario : ℚ
  variacao : Option String
deriving DecidableEq, Repr

/-- `addOrderItem(dados)`: computes
`subtotal = quantidade * preco_unitario` and inserts into `pedido_itens`.
The guard embeds the `CHECK (quantidade > 0)`, `CHECK (preco_unitario >= 0)`
and `CHECK (subtotal >= 0)` constraints. -/
def addOrderItem (s : DBState) (dados : NewItem) : Except String DBState :=
  let subtotal := (dados.quantidade : ℚ) * dados.preco_unitario
  if 0 < dados.quantidade ∧ 0 ≤ dados.preco_unitario ∧ 0 ≤ subtotal then
    .ok { s with
            pedido_itens := s.pedido_itens ++
              [{ id := s.nextItemId, pedido_id := dados.pedido_id,
                 produto_id := dados.produto_id, sku := dados.sku,
                 nome := dados.nome, quantidade := dados.quantidade,
                 preco_unitario := dados.preco_unitario, subtotal := subtotal,
                 variacao := dados.variacao }],
            nextItemId := s.nextItemId + 1 }
  else
    .error "constraint failed: pedido_itens"

/-- `getOrderById(orderId)`: `SELECT p.*, u.nome ... FROM pedidos p JOIN
usuarios u ON p.usuario_id = u.id WHERE p.id = ?` — the row exists only when
the joined user row does; the modelled projection keeps the `pedidos`
columns. -/
def getOrderById (s : DBState) (orderId : Nat) : Option Pedido :=
  (s.pedidos.find? fun p => p.id == orderId).bind fun p =>
    (s.usuarios.find? fun u => u.id == p.usuario_id).map fun _ => p

/-- `getOrderItems(orderId)`. -/
def getOrderItems (s : DBState) (orderId : Nat) : List PedidoItem :=
  s.pedido_itens.filter fun i => i.pedido_id == orderId

/-- `updateOrderStatus(orderId, novoStatus, observacao, usuarioResponsavelId)`:
look the order up (throwing `Pedido não encontrado` when absent), `UPDATE`
its `status`, then `INSERT` one `pedido_historico` row with
`(pedido_id, status_anterior, status_novo, observacao,
usuario_responsavel_id)` — the `ip_address`/`user_agent` columns are not in
the insert's column list and default to `NULL`.  Returns
`{statusAnterior, novoStatus}`. -/
def updateOrderStatus (s : DBState) (orderId : Nat) (novoStatus : Status)
    (observacao : Option String) (usuarioResponsavelId : Option Nat) :
    Except String (DBState × Status × Status) :=
  match getOrderById s orderId with
  | none => .error "Pedido não encontrado"
  | some pedido =>
    let statusAnterior := pedido.status
    let s1 := { s with pedidos := s.pedidos.map fun p : Pedido =>
        if p.id = orderId then { p with status := novoStatus } else p }
    let s2 := { s1 with
        pedido_historico := s1.pedido_historico ++
          [{ id := s1.nextHistId, pedido_id := orderId,
             status_anterior := some statusAnterior, status_novo := novoStatus,
             observacao := observacao,
             usuario_responsavel_id := usuarioResponsavelId,
             ip_address := none, user_agent := none }],
        nextHistId := s1.nextHistId + 1 }
    .ok (s2, statusAnterior, novoStatus)

/-- `getProductBySku(sku)`: `WHERE sku = ? AND deletado_em IS NULL AND
ativo = 1`. -/
def getProductBySku (s : DBState) (sku : String) : Option Produto :=
  s.produtos.find? fun p => p.sku == sku && p.deletado_em.isNone && p.ativo

/-- `updateStock(productId, quantidade)`:
`UPDATE produtos SET estoque = estoque - ? WHERE id = ?` — an unconditional
subtraction; the guard embeds the table's `CHECK (estoque >= 0)`, which
makes SQLite reject (throw on) an update that would drive any matched row's
stock negative, so such a decrement is never durably committed. -/
def updateStock (s : DBState) (productId : Nat) (quantidade : ℤ) :
    Except String DBState :=
  if ∀ p ∈ s.produtos, p.id = productId → 0 ≤ p.estoque - quantidade then
    .ok { s with produtos := s.produtos.map fun p =>
        if p.id = productId then { p with estoque := p.estoque - quantidade } else p }
  else
    .error "CHECK constraint failed: estoque"

/-- The column values `logAudit` receives. -/
structure NewAudit where
  tabela : String
  registro_id : Option Nat
  acao : String
  dados_anteriores : Option (List (String × String))
  dados_novos : Option (List (String × String))
  usuario_id : Option Nat
  ip_address : Option String
  user_agent : Option String
  endpoint : Option String
  metodo_http : Option String
deriving DecidableEq, Repr

/-- `logAudit(dados)`: append one `audit_logs` row; the generated
`crypto.randomUUID()` is the `uuid` parameter.  Append-only: no modelled
operation updates or deletes an audit row. -/
def logAudit (s : DBState) (dados : NewAudit) (uuid : String) : DBState :=
  { s with
      audit_logs := s.audit_logs ++
        [{ id := s.nextAuditId, uuid := uuid, tabela := dados.tabela,
           registro_id := dados.registro_id, acao := dados.acao,
           dados_anteriores := dados.dados_anteriores,
           dados_novos := dados.dados_novos, usuario_id := dados.usuario_id,
           ip_address := dados.ip_address, user_agent := dados.user_agent,
           endpoint := dados.endpoint, metodo_http := dados.metodo_http }],
      nextAuditId := s.nextAuditId + 1 }

/-! ## Transaction wrapper and initial state -/

/-- `withTransaction(operations)` over better-sqlite3's `db.transaction`:
when the body throws, every write it made is rolled back and the exception
propagates — the caller observes the *original* state together with the
error. -/
def withTransaction {α : Type} (s : DBState)
    (operations : DBState → Except String (DBState × α)) :
    Except String α × DBState :=
  match operations s with
  | .ok (s', a) => (.ok a, s')
  | .error e => (.error e, s)

/-- The product row `initializeDatabase` seeds (sku `BLUESHIELD-PRO-001`,
price `299.00`, stock `1000`). -/
def initProduto : Produto :=
  { id := 1, sku := "BLUESHIELD-PRO-001", nome := "BlueShield Pro",
    descricao := some "Óculos bloqueador de luz azul para profissionais de alta performance",
    preco_unitario := 299, estoque := 1000, ativo := true, deletado_em := none }

/-- The state after `initializeDatabase()` on a fresh file: empty tables
except the seeded product. -/
def initState : DBState :=
  { usuarios := [], enderecos := [], produtos := [initProduto], pedidos := [],
    pedido_itens := [], pedido_historico := [], audit_logs := [],
    nextUsuarioId := 1, nextEnderecoId := 1, nextProdutoId := 2,
    nextPedidoId := 1, nextItemId := 1, nextHistId := 1, nextAuditId := 1 }

/-! ## The checkout transaction (`server.js`, `app.post('/api/checkout')`) -/

/-- The request body the checkout route destructures (after
`validateCheckout`); `quantidade` defaults to `1` upstream. -/
structure CheckoutReq where
  nome : String
  email : String
  cpf : String
  telefone : String
  cep : String
  endereco : String
  numero : String
  complemento : Option String
  bairro : Option String
  cidade : String
  estado : String
  quantidade : ℤ
deriving DecidableEq, Repr

/-- `clientInfo = { ip: req.ip, userAgent: req.headers['user-agent'] }`. -/
structure ClientInfo where
  ip : Option String
  userAgent : Option String
deriving DecidableEq, Repr

/-- The nondeterminism the transaction body reads: the two
`crypto.randomUUID()` draws of the audit rows, the uuid and bcrypt hash of
the provisional credential of a freshly created user, and the
date/`Math.random()` draw consumed by `generateOrderNumber`. -/
structure CheckoutEnv where
  userUuid : String
  senhaHash : String
  auditUuid1 : String
  auditUuid2 : String
  year : Nat
  month : Nat
  day : Nat
  rand : ℚ
deriving DecidableEq, Repr

/-- What the transaction body returns on success
(`{ usuario, pedido, produto, quantidade, total, usuarioNovo }`). -/
structure CheckoutResult where
  usuario : Usuario
  pedidoId : Nat
  numero_pedido : String
  produto : Produto
  quantidade : ℤ
  total : ℚ
  usuarioNovo : Bool
deriving DecidableEq, Repr

/-- `bairro?.trim() || 'Não informado'`: a missing or
whitespace-only district falls back to the placeholder. -/
def bairroOrDefault (b : Option String) : String :=
  match b with
  | none => "Não informado"
  | some t => if trimStr t = "" then "Não informado" else trimStr t

/-- The second half of the transaction body — everything after the customer
is resolved (`server.js` lines 222-261): insert the delivery address as the
new default, load the product, apply the hard-coded in-memory price
override `produto.preco_unitario = 269.00`, check stock, compute the
totals with `frete = 0` and `desconto = 0`, insert the order and its one
item snapshot, decrement stock, and write the order audit entry. -/
def afterIdentity (req : CheckoutReq) (ci : ClientInfo) (env : CheckoutEnv)
    (s : DBState) (usuario : Usuario) (usuarioExistente : Bool)
    (cpfLimpo cepLimpo : String) : Except String (DBState × CheckoutResult) :=
  let addr := createAddress s
    { usuario_id := usuario.id, cep := cepLimpo,
      logradouro := trimStr req.endereco, numero := trimStr req.numero,
      complemento := req.complemento.map trimStr,
      bairro := bairroOrDefault req.bairro, cidade := trimStr req.cidade,
      estado := toUpperStr req.estado, tipo := "entrega", padrao := true }
  match getProductBySku addr.1 "BLUESHIELD-PRO-001" with
  | none => .error "Produto não encontrado"
  | some produto0 =>
    let produto := { produto0 with preco_unitario := (269 : ℚ) }
    if produto.estoque < req.quantidade then
      .error "Estoque insuficiente"
    else
      let precoUnitario := produto.preco_unitario
      let subtotal := precoUnitario * (req.quantidade : ℚ)
      let frete : ℚ := 0
      let desconto : ℚ := 0
      let total := subtotal + frete - desconto
      match createOrder addr.1
        { usuario_id := usuario.id, endereco_id := addr.2,
          subtotal := subtotal, frete := frete, desconto := desconto,
          total := total, metodo_pagamento := some "pix",
          observacoes_cliente := none } env.year env.month env.day env.rand with
      | .error e => .error e
      | .ok (s2, pedidoId, numero) =>
        match addOrderItem s2
          { pedido_id := pedidoId, produto_id := produto.id,
            sku := produto.sku, nome := produto.nome,
            quantidade := req.quantidade, preco_unitario := precoUnitario,
            variacao := none } with
        | .error e => .error e
        | .ok s3 =>
          match updateStock s3 produto.id req.quantidade with
          | .error e => .error e
          | .ok s4 =>
            let s5 := logAudit s4
              { tabela := "pedidos", registro_id := some pedidoId,
                acao := "INSERT", dados_anteriores := none,
                dados_novos := some [("numero_pedido", numero),
                  ("total", toString total),
                  ("quantidade", toString req.quantidade)],
                usuario_id := some usuario.id, ip_address := ci.ip,
                user_agent := ci.userAgent, endpoint := some "/api/checkout",
                metodo_http := some "POST" } env.auditUuid2
            .ok (s5, { usuario := usuario, pedidoId := pedidoId,
                       numero_pedido := numero, produto := produto,
                       quantidade := req.quantidade, total := total,
                       usuarioNovo := !usuarioExistente })

/-- The whole transaction body (`server.js` lines 195-262): resolve the
customer identity by verbatim email lookup (conflicting stored cpf throws
`Email já cadastrado com outro CPF`; a cpf match under a missed email
lookup throws `CPF já cadastrado com outro email`), create the customer
when neither lookup hits (normalized `email.toLowerCase().trim()`, audit
entry), then run `afterIdentity`. -/
def checkoutBody (req : CheckoutReq) (ci : ClientInfo) (env : CheckoutEnv)
    (s : DBState) : Except String (DBState × CheckoutResult) :=
  let cpfLimpo := cleanDigits req.cpf
  let cepLimpo := cleanDigits req.cep
  match getUserByEmail s req.email with
  | some usuario =>
    if usuario.cpf = cpfLimpo then
      afterIdentity req ci env s usuario true cpfLimpo cepLimpo
    else
      .error "Email já cadastrado com outro CPF"
  | none =>
    match getUserByCPF s cpfLimpo with
    | some _ => .error "CPF já cadastrado com outro email"
    | none =>
      match createUser s
        { nome := trimStr req.nome, email := trimStr (toLowerStr req.email),
          cpf := cpfLimpo, senha_hash := env.senhaHash,
          telefone := req.telefone } env.userUuid with
      | .error e => .error e
      | .ok (s1, novoId) =>
        match getUserById s1 novoId with
        | none => .error "TypeError: usuario is undefined"
        | some usuario =>
          let s2 := logAudit s1
            { tabela := "usuarios", registro_id := some usuario.id,
              acao := "INSERT", dados_anteriores := none,
              dados_novos := some [("nome", req.nome), ("email", req.email),
                ("cpf", cpfLimpo)],
              usuario_id := none, ip_address := ci.ip,
              user_agent := ci.userAgent, endpoint := some "/api/checkout",
              metodo_http := some "POST" } env.auditUuid1
          afterIdentity req ci env s2 usuario false cpfLimpo cepLimpo

/-- The checkout endpoint's unit of work:
`withTransaction((repo) => { ... })` around `checkoutBody`. -/
def checkout (req : CheckoutReq) (ci : ClientInfo) (env : CheckoutEnv)
    (s : DBState) : Except String CheckoutResult × DBState :=
  withTransaction s (checkoutBody req ci env)

/-! ## Sequences of operations

The operation alphabets used by the invariant claims: address insertions,
and the two operations that touch stock (a whole checkout transaction, and
a bare `updateStock` call — which, when its `CHECK` guard fires, persists
nothing, exactly like the rejected SQLite statement). -/

/-- An operation that touches product stock. -/
inductive Op where
  | checkoutOp (req : CheckoutReq) (ci : ClientInfo) (env : CheckoutEnv)
  | updateStockOp (productId : Nat) (quantidade : ℤ)

/-- Run one stock-touching operation; a failed bare `updateStock` leaves
the database as it was. -/
def applyOp (s : DBState) : Op → DBState
  | .checkoutOp req ci env => (checkout req ci env s).2
  | .updateStockOp pid q =>
    match updateStock s pid q with
    | .ok s' => s'
    | .error _ => s

/-- Run a sequence of stock-touching operations. -/
def applyOps (s : DBState) (ops : List Op) : DBState :=
  ops.foldl applyOp s

/-- Run a sequence of `createAddress` insertions. -/
def applyAddrs (s : DBState) (ops : List NewAddress) : DBState :=
  ops.foldl (fun s d => (createAddress s d).1) s

/-! ## Invariants -/

/-- Every product's stock is non-negative (the `CHECK (estoque >= 0)`
column constraint, as a state predicate). -/
def stockInv (s : DBState) : Prop :=
  ∀ p ∈ s.produtos, 0 ≤ p.estoque

/-- At most one non-deleted address of each customer carries the default
flag. -/
def addrInv (s : DBState) : Prop :=
  ∀ uid : Nat,
    (s.enderecos.countP fun e =>
      e.usuario_id == uid && e.padrao && e.deletado_em.isNone) ≤ 1

/-! ## Preservation lemmas: which tables each statement leaves alone -/

theorem createAddress_produtos (s : DBState) (d : NewAddress) :
    (createAddress s d).1.produtos = s.produtos := by
  unfold createAddress
  by_cases h : d.padrao <;> simp [h]

theorem createAddress_pedidos (s : DBState) (d : NewAddress) :
    (createAddress s d).1.pedidos = s.pedidos := by
  unfold createAddress
  by_cases h : d.padrao <;> simp [h]

theorem createAddress_usuarios (s : DBState) (d : NewAddress) :
    (createAddress s d).1.usuarios = s.usuarios := by
  unfold createAddress
  by_cases h : d.padrao <;> simp [h]

theorem createAddress_pedido_itens (s : DBState) (d : NewAddress) :
    (createAddress s d).1.pedido_itens = s.pedido_itens := by
  unfold createAddress
  by_cases h : d.padrao <;> simp [h]

theorem createAddress_nextPedidoId (s : DBState) (d : NewAddress) :
    (createAddress s d).1.nextPedidoId = s.nextPedidoId := by
  unfold createAddress
  by_cases h : d.padrao <;> simp [h]

theorem logAudit_produtos (s : DBState) (d : NewAudit) (uuid : String) :
    (logAudit s d uuid).produtos = s.produtos := rfl

theorem logAudit_pedidos (s : DBState) (d : NewAudit) (uuid : String) :
    (logAudit s d uuid).pedidos = s.pedidos := rfl

theorem logAudit_usuarios (s : DBState) (d : NewAudit) (uuid : String) :
    (logAudit s d uuid).usuarios = s.usuarios := rfl

theorem logAudit_pedido_itens (s : DBState) (d : NewAudit) (uuid : String) :
    (logAudit s d uuid).pedido_itens = s.pedido_itens := rfl

theorem logAudit_nextPedidoId (s : DBState) (d : NewAudit) (uuid : String) :
    (logAudit s d uuid).nextPedidoId = s.nextPedidoId := rfl

theorem getProductBySku_congr {s₁ s₂ : DBState} (h : s₁.produtos = s₂.produtos)
    (sku : String) : getProductBySku s₁ sku = getProductBySku s₂ sku := by
  unfold getProductBySku
  rw [h]

/-! ## Witness fixtures -/

/-- A stored customer as `createUser` writes one (normalized email). -/
def usuario0 : Usuario :=
  { id := 1, uuid := "u-0", nome := "Ana Silva", email := "ana@example.com",
    cpf := "11122233344", senha_hash := "h", telefone := "(11) 99999-8888",
    deletado_em := none }

/-- A stored order of `usuario0`. -/
def pedido0 : Pedido :=
  { id := 1, numero_pedido := "BSP-20260101-1234", usuario_id := 1,
    endereco_id := 1, subtotal := 299, frete := 0, desconto := 0, total := 299,
    status := .pendente, metodo_pagamento := some "pix",
    observacoes_cliente := none }

/-- A database holding one customer and one order in the given status. -/
def orderState (st : Status) : DBState :=
  { usuarios := [usuario0], enderecos := [], produtos := [initProduto],
    pedidos := [{ pedido0 with status := st }], pedido_itens := [],
    pedido_historico := [], audit_logs := [],
    nextUsuarioId := 2, nextEnderecoId := 1, nextProdutoId := 2,
    nextPedidoId := 2, nextItemId := 1, nextHistId := 1, nextAuditId := 1 }

/-- A valid checkout request from a fresh customer. -/
def req0 : CheckoutReq :=
  { nome := "Ana Silva", email := "ana@example.com", cpf := "111.222.333-44",
    telefone := "(11) 99999-8888", cep := "01310-100",
    endereco := "Av Paulista", numero := "1000", complemento := none,
    bairro := some "Bela Vista", cidade := "Sao Paulo", estado := "sp",
    quantidade := 1 }

/-- A request context. -/
def ci0 : ClientInfo :=
  { ip := some "203.0.113.5", userAgent := some "curl/8" }

/-- One draw of the transaction's nondeterminism. -/
def env0 : CheckoutEnv :=
  { userUuid := "u-1", senhaHash := "h-1", auditUuid1 := "a-1",
    auditUuid2 := "a-2", year := 2026, month := 10, day := 11, rand := 1/2 }

/-- A well-formed item insert for the witness of C10. -/
def item0 : NewItem :=
  { pedido_id := 1, produto_id := 1, sku := "BLUESHIELD-PRO-001",
    nome := "BlueShield Pro", quantidade := 2, preco_unitario := 269,
    variacao := none }

/-! ## C10 — order-item snapshot -/

/-- **C10.** For every order item inserted via `addOrderItem` (with the
caller-contract positive quantity and non-negative unit price, under which
the row passes the table's `CHECK` constraints), the stored subtotal equals
`quantidade * preco_unitario` as supplied, and the stored SKU, name,
quantity and unit price equal the supplied snapshot values. -/
theorem addOrderItem_stores_snapshot (s : DBState) (dados : NewItem)
    (hq : 0 < dados.quantidade) (hp : 0 ≤ dados.preco_unitario) :
    ∃ s', addOrderItem s dados = .ok s' ∧
      ∃ item : PedidoItem, s'.pedido_itens = s.pedido_itens ++ [item] ∧
        item.sku = dados.sku ∧ item.nome = dados.nome ∧
        item.quantidade = dados.quantidade ∧
        item.preco_unitario = dados.preco_unitario ∧
        item.subtotal = (dados.quantidade : ℚ) * dados.preco_unitario := by
  have hq' : (0 : ℚ) ≤ (dados.quantidade : ℚ) := by exact_mod_cast hq.le
  have hsub : (0 : ℚ) ≤ (dados.quantidade : ℚ) * dados.preco_unitario :=
    mul_nonneg hq' hp
  simp only [addOrderItem]
  rw [if_pos ⟨hq, hp, hsub⟩]
  exact ⟨_, rfl, _, rfl, rfl, rfl, rfl, rfl, rfl⟩

/-- Witness for C10 at a concrete insert. -/
theorem addOrderItem_stores_snapshot_witness :
    ∃ s', addOrderItem (orderState .pendente) item0 = .ok s' ∧
      ∃ item : PedidoItem,
        s'.pedido_itens = (orderState .pendente).pedido_itens ++ [item] ∧
        item.sku = item0.sku ∧ item.nome = item0.nome ∧
        item.quantidade = item0.quantidade ∧
        item.preco_unitario = item0.preco_unitario ∧
        item.subtotal = (item0.quantidade : ℚ) * item0.preco_unitario :=
  addOrderItem_stores_snapshot (orderState .pendente) item0 (by decide)
    (by decide)

/-! ## C6 — no state-machine validation on status transitions -/

/-- **C6.** `updateOrderStatus` does not validate reachability in the
order-status state machine: for every existing order (in any current
status) and every `novoStatus` in the allowed status set, the transition
succeeds — there is no `InvalidTransition` failure. -/
theorem updateOrderStatus_permits_any_transition (s : DBState)
    (orderId : Nat) (p : Pedido) (novo : Status) (obs : Option String)
    (resp : Option Nat) (h : getOrderById s orderId = some p) :
    ∃ s', updateOrderStatus s orderId novo obs resp = .ok (s', p.status, novo) := by
  unfold updateOrderStatus
  rw [h]
  exact ⟨_, rfl⟩

/-- Witness for C6: the backwards transition `entregue → pendente`
succeeds. -/
theorem updateOrderStatus_permits_any_transition_witness :
    ∃ s', updateOrderStatus (orderState .entregue) 1 .pendente none none =
      .ok (s', Status.entregue, Status.pendente) :=
  updateOrderStatus_permits_any_transition (orderState .entregue) 1
    { pedido0 with status := .entregue } .pendente none none rfl

/-! ## C5 — status transition appends exactly one history event -/

/-- Counterexample to C5 as stated: the history row written by
`updateOrderStatus` does *not* capture the request context.  At a concrete
webhook-style call (whose HTTP request context carries an IP and a user
agent) the one appended `pedido_historico` row has `ip_address` and
`user_agent` both `NULL` — the insert of `updateOrderStatus` never lists
those columns — so the event cannot equal a capture of the caller's
context. -/
theorem updateOrderStatus_context_columns_null :
    ((updateOrderStatus (orderState .pendente) 1 .pago
        (some "Pago via InfinitePay (pix)") none).toOption.map fun r =>
      r.1.pedido_historico.map fun e => (e.ip_address, e.user_agent)) =
      some [((none : Option String), (none : Option String))] ∧
    ((none : Option String), (none : Option String)) ≠
      (some "203.0.113.5", some "curl/8") :=
  ⟨rfl, by decide⟩

/-- **C5 (amended).** For every existing order, a successful status
transition updates the order's status to the new value and appends exactly
one `pedido_historico` event whose `status_anterior` equals the order's
status immediately before the call, capturing `(previousStatus, newStatus,
note, actorId)`; the request-context columns of the event are left `NULL`
(not captured).  Both writes happen in the same successful return: the
event write is never skipped when the status write succeeds. -/
theorem updateOrderStatus_appends_event (s : DBState) (orderId : Nat)
    (p : Pedido) (novo : Status) (obs : Option String) (resp : Option Nat)
    (h : getOrderById s orderId = some p) :
    ∃ s', updateOrderStatus s orderId novo obs resp = .ok (s', p.status, novo) ∧
      s'.pedidos = s.pedidos.map (fun q : Pedido =>
        if q.id = orderId then { q with status := novo } else q) ∧
      s'.pedido_historico = s.pedido_historico ++
        [{ id := s.nextHistId, pedido_id := orderId,
           status_anterior := some p.status, status_novo := novo,
           observacao := obs, usuario_responsavel_id := resp,
           ip_address := none, user_agent := none }] := by
  unfold updateOrderStatus
  rw [h]
  exact ⟨_, rfl, rfl, rfl⟩

/-- Witness for the amended C5 at a concrete transition. -/
theorem updateOrderStatus_appends_event_witness :
    ∃ s', updateOrderStatus (orderState .pendente) 1 .pago (some "ok")
        (some 1) = .ok (s', Status.pendente, Status.pago) ∧
      s'.pedidos = (orderState .pendente).pedidos.map (fun q : Pedido =>
        if q.id = 1 then { q with status := .pago } else q) ∧
      s'.pedido_historico = (orderState .pendente).pedido_historico ++
        [{ id := (orderState .pendente).nextHistId, pedido_id := 1,
           status_anterior := some Status.pendente, status_novo := .pago,
           observacao := some "ok", usuario_responsavel_id := some 1,
           ip_address := none, user_agent := none }] :=
  updateOrderStatus_appends_event (orderState .pendente) 1
    { pedido0 with status := .pendente } .pago (some "ok") (some 1) rfl

/-! ## C4 — at most one default address per customer -/

theorem addrInv_createAddress (s : DBState) (d : NewAddress)
    (h : addrInv s) : addrInv (createAddress s d).1 := by
  intro uid
  have h2 := h uid
  by_cases hp : d.padrao = true
  · simp only [createAddress, hp, if_true]
    rw [List.countP_append, List.countP_map]
    by_cases huid : uid = d.usuario_id
    · have h0 : (List.countP ((fun e : Endereco =>
          e.usuario_id == uid && e.padrao && e.deletado_em.isNone) ∘
          fun e : Endereco =>
            if e.usuario_id = d.usuario_id then { e with padrao := false }
            else e) s.enderecos) = 0 := by
        rw [List.countP_eq_zero]
        intro e _
        by_cases he : e.usuario_id = d.usuario_id
        · simp [Function.comp, he]
        · have hne : e.usuario_id ≠ uid := fun hh => he (hh.trans huid)
          simp [Function.comp, he, hne]
      rw [h0]
      have h1 : (List.countP (fun e : Endereco =>
          e.usuario_id == uid && e.padrao && e.deletado_em.isNone)
          [{ id := s.nextEnderecoId, usuario_id := d.usuario_id, cep := d.cep,
             logradouro := d.logradouro, numero := d.numero,
             complemento := d.complemento, bairro := d.bairro,
             cidade := d.cidade, estado := d.estado, tipo := d.tipo,
             padrao := true, deletado_em := none }]) ≤ 1 :=
        le_trans (List.countP_le_length _) (by simp)
      omega
    · have hcongr : (List.countP ((fun e : Endereco =>
          e.usuario_id == uid && e.padrao && e.deletado_em.isNone) ∘
          fun e : Endereco =>
            if e.usuario_id = d.usuario_id then { e with padrao := false }
            else e) s.enderecos) =
          s.enderecos.countP fun e : Endereco =>
            e.usuario_id == uid && e.padrao && e.deletado_em.isNone := by
        apply List.countP_congr
        intro e _
        by_cases he : e.usuario_id = d.usuario_id
        · have hne : d.usuario_id ≠ uid := fun hh => huid hh.symm
          simp [Function.comp, he, hne]
        · simp [Function.comp, he]
      rw [hcongr]
      have h1 : (List.countP (fun e : Endereco =>
          e.usuario_id == uid && e.padrao && e.deletado_em.isNone)
          [{ id := s.nextEnderecoId, usuario_id := d.usuario_id, cep := d.cep,
             logradouro := d.logradouro, numero := d.numero,
             complemento := d.complemento, bairro := d.bairro,
             cidade := d.cidade, estado := d.estado, tipo := d.tipo,
             padrao := true, deletado_em := none }]) = 0 := by
        rw [List.countP_eq_zero]
        intro e he
        simp only [List.mem_singleton] at he
        subst he
        have hne : d.usuario_id ≠ uid := fun hh => huid hh.symm
        simp [hne]
      omega
  · have hpf : d.padrao = false := by
      cases hpd : d.padrao
      · rfl
      · exact absurd hpd hp
    simp only [createAddress, hpf, if_false, Bool.false_eq_true]
    rw [List.countP_append]
    have h1 : (List.countP (fun e : Endereco =>
        e.usuario_id == uid && e.padrao && e.deletado_em.isNone)
        [{ id := s.nextEnderecoId, usuario_id := d.usuario_id, cep := d.cep,
           logradouro := d.logradouro, numero := d.numero,
           complemento := d.complemento, bairro := d.bairro,
           cidade := d.cidade, estado := d.estado, tipo := d.tipo,
           padrao := false, deletado_em := none }]) = 0 := by
      rw [List.countP_eq_zero]
      intro e he
      simp only [List.mem_singleton] at he
      subst he
      simp
    omega

theorem applyAddrs_addrInv (ops : List NewAddress) :
    ∀ s : DBState, addrInv s → addrInv (applyAddrs s ops) := by
  induction ops with
  | nil => intro s h; exact h
  | cons d ops ih =>
    intro s h
    exact ih (createAddress s d).1 (addrInv_createAddress s d h)

theorem addrInv_initState : addrInv initState := by
  intro uid
  simp [initState]

/-- **C4.** Starting from the initialized database, after every sequence of
address insertions at most one non-deleted address of each customer has the
default flag set; and an insertion requesting `is_default = true` first
demotes every address row of that customer to non-default and then appends
the new row as the default, in the same unit of work (one `createAddress`
call). -/
theorem createAddress_default_invariant :
    (∀ ops : List NewAddress, addrInv (applyAddrs initState ops)) ∧
    (∀ (s : DBState) (dados : NewAddress), dados.padrao = true →
      (createAddress s dados).1.enderecos =
        (s.enderecos.map fun e : Endereco =>
          if e.usuario_id = dados.usuario_id then { e with padrao := false }
          else e) ++
        [{ id := s.nextEnderecoId, usuario_id := dados.usuario_id,
           cep := dados.cep, logradouro := dados.logradouro,
           numero := dados.numero, complemento := dados.complemento,
           bairro := dados.bairro, cidade := dados.cidade,
           estado := dados.estado, tipo := dados.tipo, padrao := true,
           deletado_em := none }]) := by
  constructor
  · intro ops
    exact applyAddrs_addrInv ops initState addrInv_initState
  · intro s dados hpad
    unfold createAddress
    rw [if_pos hpad]
    simp [hpad]

/-- A default-address insertion for customer 1, used by the C4 witness. -/
def addrA : NewAddress :=
  { usuario_id := 1, cep := "01310100", logradouro := "Av Paulista",
    numero := "1000", complemento := none, bairro := "Bela Vista",
    cidade := "Sao Paulo", estado := "SP", tipo := "entrega", padrao := true }

/-- Witness for C4: two consecutive default insertions for the same
customer keep the invariant, and the demote-then-insert shape holds at a
concrete state. -/
theorem createAddress_default_invariant_witness :
    addrInv (applyAddrs initState [addrA, addrA]) ∧
    (createAddress initState addrA).1.enderecos =
      (initState.enderecos.map fun e : Endereco =>
        if e.usuario_id = addrA.usuario_id then { e with padrao := false }
        else e) ++
      [{ id := initState.nextEnderecoId, usuario_id := addrA.usuario_id,
         cep := addrA.cep, logradouro := addrA.logradouro,
         numero := addrA.numero, complemento := addrA.complemento,
         bairro := addrA.bairro, cidade := addrA.cidade,
         estado := addrA.estado, tipo := addrA.tipo, padrao := true,
         deletado_em := none }] :=
  ⟨createAddress_default_invariant.1 [addrA, addrA],
   createAddress_default_invariant.2 initState addrA rfl⟩

/-! ## C8 — order-number format -/

theorem digitChar_beq_dash (n : Nat) : (digitChar n == '-') = false := by
  have h : n % 10 < 10 := Nat.mod_lt _ (by norm_num)
  unfold digitChar
  set k := n % 10 with hk
  interval_cases k <;> decide

theorem stripDashes_isoDateSlice (y m d : Nat) :
    stripDashes (isoDateSlice y m d) = String.mk (pad4 y ++ pad2 m ++ pad2 d) := by
  unfold stripDashes isoDateSlice pad4 pad2
  simp [List.filter_append, List.filter_cons, digitChar_beq_dash]

/-- **C8.** Every generated order number is the fixed prefix `BSP`, the
current date compactly encoded as `YYYYMMDD`, and a random suffix
`⌊1000 + r·9000⌋` lying between 1000 and 9999 (four digits), joined by
dashes; and the number is a display column of the inserted order row, not
its key — `createOrder` keys the row by the autoincrement `id` it returns,
whatever the generated number is. -/
theorem generateOrderNumber_format (y m d : Nat) (r : ℚ)
    (h0 : 0 ≤ r) (h1 : r < 1) :
    generateOrderNumber y m d r =
      "BSP-" ++ String.mk (pad4 y ++ pad2 m ++ pad2 d) ++ "-" ++
        toString (⌊(1000 : ℚ) + r * 9000⌋) ∧
    1000 ≤ ⌊(1000 : ℚ) + r * 9000⌋ ∧ ⌊(1000 : ℚ) + r * 9000⌋ ≤ 9999 ∧
    (∀ (s : DBState) (dados : NewOrder) (out : DBState × Nat × String),
      createOrder s dados y m d r = .ok out →
      out.2.1 = s.nextPedidoId ∧ out.2.2 = generateOrderNumber y m d r ∧
      ∃ row : Pedido, out.1.pedidos = s.pedidos ++ [row] ∧
        row.id = out.2.1 ∧ row.numero_pedido = out.2.2) := by
  refine ⟨?_, ?_, ?_, ?_⟩
  · unfold generateOrderNumber
    rw [stripDashes_isoDateSlice]
  · rw [Int.le_floor]
    push_cast
    nlinarith
  · have hlt : ⌊(1000 : ℚ) + r * 9000⌋ < 10000 := by
      rw [Int.floor_lt]
      push_cast
      nlinarith
    omega
  · intro s dados out h
    simp only [createOrder] at h
    split at h
    · injection h with h'
      subst h'
      exact ⟨rfl, rfl, _, rfl, rfl, rfl⟩
    · cases h

/-- Witness for C8 at a concrete date and random draw. -/
theorem generateOrderNumber_format_witness :
    generateOrderNumber 2026 10 11 0 =
      "BSP-" ++ String.mk (pad4 2026 ++ pad2 10 ++ pad2 11) ++ "-" ++
        toString (⌊(1000 : ℚ) + 0 * 9000⌋) ∧
    1000 ≤ ⌊(1000 : ℚ) + (0 : ℚ) * 9000⌋ ∧
    ⌊(1000 : ℚ) + (0 : ℚ) * 9000⌋ ≤ 9999 ∧
    (∀ (s : DBState) (dados : NewOrder) (out : DBState × Nat × String),
      createOrder s dados 2026 10 11 0 = .ok out →
      out.2.1 = s.nextPedidoId ∧
      out.2.2 = generateOrderNumber 2026 10 11 0 ∧
      ∃ row : Pedido, out.1.pedidos = s.pedidos ++ [row] ∧
        row.id = out.2.1 ∧ row.numero_pedido = out.2.2) :=
  generateOrderNumber_format 2026 10 11 0 (by decide) (by decide)

/-! ## C7 — stock is never negative -/

theorem updateStock_ok_produtos {s : DBState} {pid : Nat} {q : ℤ}
    {s' : DBState} (h : updateStock s pid q = .ok s') :
    s'.produtos = s.produtos.map fun p : Produto =>
      if p.id = pid then { p with estoque := p.estoque - q } else p := by
  unfold updateStock at h
  split at h
  · injection h with h'
    subst h'
    rfl
  · cases h

theorem updateStock_ok_stockInv {s : DBState} {pid : Nat} {q : ℤ}
    {s' : DBState} (h : updateStock s pid q = .ok s') (hs : stockInv s) :
    stockInv s' := by
  unfold updateStock at h
  split at h
  case isTrue hc =>
    injection h with h'
    subst h'
    intro p hp
    simp only [List.mem_map] at hp
    obtain ⟨p0, hp0, rfl⟩ := hp
    by_cases hid : p0.id = pid
    · simpa [hid] using hc p0 hp0 hid
    · simpa [hid] using hs p0 hp0
  case isFalse => cases h

theorem createUser_ok_produtos {s : DBState} {d : NewUser} {uuid : String}
    {out : DBState × Nat} (h : createUser s d uuid = .ok out) :
    out.1.produtos = s.produtos := by
  unfold createUser at h
  split at h
  · injection h with h'
    subst h'
    rfl
  · cases h

theorem createOrder_ok_produtos {s : DBState} {d : NewOrder}
    {y m dd : Nat} {r : ℚ} {out : DBState × Nat × String}
    (h : createOrder s d y m dd r = .ok out) : out.1.produtos = s.produtos := by
  simp only [createOrder] at h
  split at h
  · injection h with h'
    subst h'
    rfl
  · cases h

theorem addOrderItem_ok_produtos {s : DBState} {d : NewItem} {s' : DBState}
    (h : addOrderItem s d = .ok s') : s'.produtos = s.produtos := by
  simp only [addOrderItem] at h
  split at h
  · injection h with h'
    subst h'
    rfl
  · cases h

theorem stockInv_congr {s₁ s₂ : DBState} (h : s₁.produtos = s₂.produtos)
    (hs : stockInv s₂) : stockInv s₁ := by
  intro p hp
  exact hs p (h ▸ hp)

theorem afterIdentity_ok_stockInv {req : CheckoutReq} {ci : ClientInfo}
    {env : CheckoutEnv} {s : DBState} {usuario : Usuario} {ex : Bool}
    {cpfL cepL : String} {out : DBState × CheckoutResult}
    (h : afterIdentity req ci env s usuario ex cpfL cepL = .ok out)
    (hs : stockInv s) : stockInv out.1 := by
  simp only [afterIdentity] at h
  split at h
  · cases h
  next produto0 hsku =>
    split at h
    · cases h
    · split at h
      · cases h
      next s2 pedidoId numero hco =>
        split at h
        · cases h
        next s3 hitem =>
          split at h
          · cases h
          next s4 hstk =>
            injection h with h'
            subst h'
            have h4 : stockInv s4 := by
              apply updateStock_ok_stockInv hstk
              apply stockInv_congr (addOrderItem_ok_produtos hitem)
              apply stockInv_congr (createOrder_ok_produtos hco)
              exact stockInv_congr (createAddress_produtos s _) hs
            exact stockInv_congr (logAudit_produtos s4 _ _) h4

theorem checkoutBody_ok_stockInv {req : CheckoutReq} {ci : ClientInfo}
    {env : CheckoutEnv} {s : DBState} {out : DBState × CheckoutResult}
    (h : checkoutBody req ci env s = .ok out) (hs : stockInv s) :
    stockInv out.1 := by
  simp only [checkoutBody] at h
  split at h
  · split at h
    · exact afterIdentity_ok_stockInv h hs
    · cases h
  · split at h
    · cases h
    · split at h
      · cases h
      next s1 novoId hcu =>
        split at h
        · cases h
        · have h1 : s1.produtos = s.produtos := createUser_ok_produtos hcu
          exact afterIdentity_ok_stockInv h
            (stockInv_congr ((logAudit_produtos s1 _ _).trans h1) hs)

theorem checkout_snd_stockInv (req : CheckoutReq) (ci : ClientInfo)
    (env : CheckoutEnv) {s : DBState} (hs : stockInv s) :
    stockInv (checkout req ci env s).2 := by
  unfold checkout withTransaction
  rcases hbody : checkoutBody req ci env s with e | out
  · exact hs
  · exact checkoutBody_ok_stockInv hbody hs

theorem stockInv_applyOp (s : DBState) (op : Op) (hs : stockInv s) :
    stockInv (applyOp s op) := by
  cases op with
  | checkoutOp req ci env => exact checkout_snd_stockInv req ci env hs
  | updateStockOp pid q =>
    simp only [applyOp]
    rcases hu : updateStock s pid q with e | s'
    · exact hs
    · exact updateStock_ok_stockInv hu hs

theorem applyOps_stockInv (ops : List Op) :
    ∀ s : DBState, stockInv s → stockInv (applyOps s ops) := by
  induction ops with
  | nil => intro s hs; exact hs
  | cons op ops ih =>
    intro s hs
    exact ih (applyOp s op) (stockInv_applyOp s op hs)

theorem stockInv_initState : stockInv initState := by
  intro p hp
  simp only [initState, List.mem_singleton] at hp
  subst hp
  simp [initProduto]

/-- **C7.** Product stock is never negative: after initialization and after
every sequence of checkout transactions and bare stock decrements, every
product's stock is `≥ 0`; and the decrement operation itself subtracts
unconditionally — whenever it commits, the stored stock is exactly the old
stock minus the requested quantity, with no clamping (a decrement that
would drive stock negative is rejected by the embedded `CHECK` and commits
nothing). -/
theorem stock_never_negative :
    (∀ ops : List Op, stockInv (applyOps initState ops)) ∧
    (∀ (s : DBState) (pid : Nat) (q : ℤ) (s' : DBState),
      updateStock s pid q = .ok s' →
      s'.produtos = s.produtos.map fun p : Produto =>
        if p.id = pid then { p with estoque := p.estoque - q } else p) :=
  ⟨fun ops => applyOps_stockInv ops initState stockInv_initState,
   fun _ _ _ _ h => updateStock_ok_produtos h⟩

/-- The database after a bare committed decrement of five units. -/
def decState : DBState :=
  { initState with produtos := [{ initProduto with estoque := 995 }] }

/-- Witness for C7: a five-unit decrement of the seeded product commits and
stores exactly `1000 - 5`. -/
theorem stock_never_negative_witness :
    stockInv (applyOps initState [Op.updateStockOp 1 5]) ∧
    decState.produtos = initState.produtos.map (fun p : Produto =>
      if p.id = 1 then { p with estoque := p.estoque - 5 } else p) :=
  ⟨stock_never_negative.1 [Op.updateStockOp 1 5],
   stock_never_negative.2 initState 1 5 decState rfl⟩

/-! ## C2 — email bound to a different tax-id -/

/-- **C2.** A checkout whose email matches an existing non-deleted customer
whose stored cpf differs from the (digit-cleaned) submitted one fails with
the identity-conflict error `Email já cadastrado com outro CPF`, and the
transaction leaves the database exactly as it was: no new customer,
address, order, item or audit row, and unchanged stock. -/
theorem checkout_email_conflict (req : CheckoutReq) (ci : ClientInfo)
    (env : CheckoutEnv) (s : DBState) (u : Usuario)
    (hu : getUserByEmail s req.email = some u)
    (hcpf : u.cpf ≠ cleanDigits req.cpf) :
    checkout req ci env s = (.error "Email já cadastrado com outro CPF", s) := by
  simp only [checkout, withTransaction, checkoutBody, hu]
  rw [if_neg hcpf]

/-- Witness for C2: the stored customer holds cpf `11122233344`; the same
email arrives with a different tax-id. -/
theorem checkout_email_conflict_witness :
    checkout { req0 with cpf := "999.888.777-66" } ci0 env0
        (orderState .pendente) =
      (.error "Email já cadastrado com outro CPF", orderState .pendente) :=
  checkout_email_conflict { req0 with cpf := "999.888.777-66" } ci0 env0
    (orderState .pendente) usuario0 (by decide) (by decide)

/-! ## C9 — verbatim email lookup vs. normalized email storage -/

/-- **C9.** `getUserByEmail` compares the submitted email verbatim while
`createUser` stores the checkout email lower-cased and trimmed.  Hence for
a customer stored with the normalized email, a checkout submitting the same
email in different capitalization (so that the verbatim string differs from
the stored one, and no other row matches it verbatim) with the *same*
tax-id does not find the customer by email; the cpf lookup then hits, and
the checkout fails with `CPF já cadastrado com outro email` (tax-id bound
to another email), leaving the state unchanged. -/
theorem checkout_case_mismatch_cpf_conflict (req : CheckoutReq)
    (ci : ClientInfo) (env : CheckoutEnv) (s : DBState) (u : Usuario)
    (hmem : u ∈ s.usuarios) (hdel : u.deletado_em = none)
    (hstored : u.email = trimStr (toLowerStr req.email))
    (hdiff : req.email ≠ trimStr (toLowerStr req.email))
    (hnov : ∀ v ∈ s.usuarios, v.deletado_em = none → v.email ≠ req.email)
    (hcpf : u.cpf = cleanDigits req.cpf) :
    getUserByEmail s req.email = none ∧
    checkout req ci env s = (.error "CPF já cadastrado com outro email", s) := by
  have hnone : getUserByEmail s req.email = none := by
    unfold getUserByEmail
    rw [List.find?_eq_none]
    intro v hv
    rcases hdl : v.deletado_em with _ | t
    · simp [hnov v hv hdl]
    · simp [hdl]
  refine ⟨hnone, ?_⟩
  simp only [checkout, withTransaction, checkoutBody, hnone]
  rcases hfind : getUserByCPF s (cleanDigits req.cpf) with _ | w
  · exfalso
    have := List.find?_eq_none.mp hfind u hmem
    simp [hcpf, hdel] at this
  · rfl

/-- Witness for C9: the customer is stored as `ana@example.com`; the second
checkout submits `Ana@example.com` with the same tax-id. -/
theorem checkout_case_mismatch_cpf_conflict_witness :
    getUserByEmail (orderState .pendente) "Ana@example.com" = none ∧
    checkout { req0 with email := "Ana@example.com" } ci0 env0
        (orderState .pendente) =
      (.error "CPF já cadastrado com outro email", orderState .pendente) :=
  checkout_case_mismatch_cpf_conflict
    { req0 with email := "Ana@example.com" } ci0 env0 (orderState .pendente)
    usuario0 (by decide) (by decide) (by decide) (by decide) (by decide)
    (by decide)

/-! ## C3 — insufficient stock rolls the whole unit of work back -/

theorem getUserById_append_fresh (s : DBState) (u : Usuario)
    (hnext : ∀ v ∈ s.usuarios, v.id < s.nextUsuarioId)
    (hu : u.id = s.nextUsuarioId) (hdel : u.deletado_em = none) :
    getUserById
      { s with
          usuarios := s.usuarios ++ [u],
          nextUsuarioId := s.nextUsuarioId + 1 }
      s.nextUsuarioId = some u := by
  unfold getUserById
  simp only
  rw [List.find?_append]
  have h1 : (s.usuarios.find? fun v =>
      v.id == s.nextUsuarioId && v.deletado_em.isNone) = none := by
    rw [List.find?_eq_none]
    intro v hv
    simp [Nat.ne_of_lt (hnext v hv)]
  rw [h1]
  simp [hu, hdel]

theorem afterIdentity_insufficient (req : CheckoutReq) (ci : ClientInfo)
    (env : CheckoutEnv) (s₀ : DBState) (usuario : Usuario) (ex : Bool)
    (cpfL cepL : String) (produto : Produto)
    (hprod : getProductBySku s₀ "BLUESHIELD-PRO-001" = some produto)
    (hstock : produto.estoque < req.quantidade) :
    afterIdentity req ci env s₀ usuario ex cpfL cepL =
      .error "Estoque insuficiente" := by
  simp only [afterIdentity]
  rw [(getProductBySku_congr (createAddress_produtos s₀ _) _).trans hprod]
  simp only
  rw [if_pos hstock]

/-- **C3.** A checkout for a product whose stock is strictly below the
requested quantity fails with `Estoque insuficiente` and the transaction
returns the database exactly as it was: stock unchanged and no order — in
particular the customer row, its audit entry and the default-demoting
address insert performed earlier in the same unit of work are rolled back
(here on the new-customer path, which performs all of those writes before
the stock check). -/
theorem checkout_insufficient_stock_rolls_back (req : CheckoutReq)
    (ci : ClientInfo) (env : CheckoutEnv) (s : DBState) (produto : Produto)
    (hnoemail : ∀ v ∈ s.usuarios, v.email ≠ req.email)
    (hnonorm : ∀ v ∈ s.usuarios, v.email ≠ trimStr (toLowerStr req.email))
    (hnocpf : ∀ v ∈ s.usuarios, v.cpf ≠ cleanDigits req.cpf)
    (hnext : ∀ v ∈ s.usuarios, v.id < s.nextUsuarioId)
    (hprod : getProductBySku s "BLUESHIELD-PRO-001" = some produto)
    (hstock : produto.estoque < req.quantidade) :
    checkout req ci env s = (.error "Estoque insuficiente", s) := by
  have hE : getUserByEmail s req.email = none := by
    unfold getUserByEmail
    rw [List.find?_eq_none]
    intro v hv
    simp [hnoemail v hv]
  have hC : getUserByCPF s (cleanDigits req.cpf) = none := by
    unfold getUserByCPF
    rw [List.find?_eq_none]
    intro v hv
    simp [hnocpf v hv]
  have hguard : ∀ v ∈ s.usuarios,
      v.email ≠ trimStr (toLowerStr req.email) ∧
      v.cpf ≠ cleanDigits req.cpf :=
    fun v hv => ⟨hnonorm v hv, hnocpf v hv⟩
  simp only [checkout, withTransaction, checkoutBody, hE, hC, createUser]
  rw [if_pos hguard]
  simp only
  rw [getUserById_append_fresh s _ hnext rfl rfl]
  simp only
  rw [afterIdentity_insufficient _ _ _ _ _ _ _ _ produto ?hp hstock]
  case hp => exact (getProductBySku_congr rfl _).trans hprod

/-- Witness for C3: the seeded database, a fresh customer, and a request
for more units than the seeded stock of 1000. -/
theorem checkout_insufficient_stock_rolls_back_witness :
    checkout { req0 with quantidade := 1001 } ci0 env0 initState =
      (.error "Estoque insuficiente", initState) :=
  checkout_insufficient_stock_rolls_back { req0 with quantidade := 1001 }
    ci0 env0 initState initProduto (by decide) (by decide) (by decide)
    (by decide) (by decide) (by decide)

/-! ## C1 — the effects of a successful checkout -/

/-- The one success path of `afterIdentity`: under the caller contract
(positive quantity), a found product with sufficient stock, a fresh order
number and id-unique products, the tail of the transaction inserts exactly
one order (totals computed from the overridden fixed unit price `269.00`
with zero shipping and discount), exactly one item snapshot at that price,
decrements exactly the bought product's stock by the quantity, and leaves
`usuarios` untouched. -/
theorem afterIdentity_success (req : CheckoutReq) (ci : ClientInfo)
    (env : CheckoutEnv) (s : DBState) (usuario : Usuario) (ex : Bool)
    (cpfL cepL : String) (produto : Produto)
    (hq : 0 < req.quantidade)
    (hprod : getProductBySku s "BLUESHIELD-PRO-001" = some produto)
    (hstock : req.quantidade ≤ produto.estoque)
    (hnum : ∀ p ∈ s.pedidos, p.numero_pedido ≠
      generateOrderNumber env.year env.month env.day env.rand)
    (hpid : ∀ p ∈ s.produtos, ∀ p' ∈ s.produtos, p.id = p'.id → p = p') :
    ∃ s' res, afterIdentity req ci env s usuario ex cpfL cepL = .ok (s', res) ∧
      s'.usuarios = s.usuarios ∧
      (∃ order : Pedido, s'.pedidos = s.pedidos ++ [order] ∧
        order.subtotal = 269 * (req.quantidade : ℚ) ∧
        order.frete = 0 ∧ order.desconto = 0 ∧
        order.total = 269 * (req.quantidade : ℚ) ∧
        order.status = .pendente ∧ order.usuario_id = usuario.id ∧
        ∃ item : PedidoItem, s'.pedido_itens = s.pedido_itens ++ [item] ∧
          item.pedido_id = order.id ∧ item.produto_id = produto.id ∧
          item.sku = produto.sku ∧ item.nome = produto.nome ∧
          item.quantidade = req.quantidade ∧ item.preco_unitario = 269 ∧
          item.subtotal = (req.quantidade : ℚ) * 269) ∧
      s'.produtos = s.produtos.map (fun p : Produto =>
        if p.id = produto.id then
          { p with estoque := p.estoque - req.quantidade }
        else p) ∧
      res.usuario = usuario ∧
      res.total = 269 * (req.quantidade : ℚ) ∧
      res.usuarioNovo = !ex := by
  have hqQ : (0 : ℚ) ≤ (req.quantidade : ℚ) := by exact_mod_cast hq.le
  have hsub : (0 : ℚ) ≤ 269 * (req.quantidade : ℚ) :=
    mul_nonneg (by norm_num) hqQ
  simp only [afterIdentity]
  rw [(getProductBySku_congr (createAddress_produtos s _) _).trans hprod]
  simp only
  rw [if_neg (not_lt.mpr hstock)]
  simp only [createOrder]
  rw [if_pos ?hco]
  case hco =>
    refine ⟨hsub, le_refl 0, le_refl 0, by simpa using hsub, ?_⟩
    rw [createAddress_pedidos]
    exact hnum
  simp only [addOrderItem]
  rw [if_pos ?hit]
  case hit =>
    exact ⟨hq, by norm_num, mul_nonneg hqQ (by norm_num)⟩
  simp only [updateStock]
  rw [if_pos ?hst]
  case hst =>
    rw [createAddress_produtos]
    intro p hp hid
    have hmem : produto ∈ s.produtos := List.mem_of_find?_eq_some hprod
    have hpe : p = produto := hpid p hp produto hmem hid
    rw [hpe]
    exact Int.sub_nonneg.mpr hstock
  simp only [logAudit]
  refine ⟨_, _, rfl, ?usr, ?ped, ?prods, rfl, ?tot, rfl⟩
  case usr => exact createAddress_usuarios s _
  case ped =>
    simp only
    rw [createAddress_pedidos, createAddress_pedido_itens]
    exact ⟨_, rfl, rfl, rfl, rfl, by simp, rfl, rfl, _, rfl, rfl, rfl, rfl,
      rfl, rfl, rfl, rfl⟩
  case prods =>
    simp only
    rw [createAddress_produtos]
  case tot =>
    simp

/-- The full checkout success specification, over both identity paths
(customer reused on a verbatim email hit with matching cpf, or freshly
created when neither email nor cpf exists).  This is the workhorse behind
the C1 theorem and its counterexample. -/
theorem checkout_success_spec (req : CheckoutReq) (ci : ClientInfo)
    (env : CheckoutEnv) (s : DBState) (produto : Produto)
    (hq : 0 < req.quantidade)
    (hprod : getProductBySku s "BLUESHIELD-PRO-001" = some produto)
    (hstock : req.quantidade ≤ produto.estoque)
    (hnum : ∀ p ∈ s.pedidos, p.numero_pedido ≠
      generateOrderNumber env.year env.month env.day env.rand)
    (hpid : ∀ p ∈ s.produtos, ∀ p' ∈ s.produtos, p.id = p'.id → p = p')
    (hident :
      (∃ u, getUserByEmail s req.email = some u ∧
        u.cpf = cleanDigits req.cpf) ∨
      (getUserByEmail s req.email = none ∧
       (∀ v ∈ s.usuarios, v.email ≠ trimStr (toLowerStr req.email) ∧
         v.cpf ≠ cleanDigits req.cpf) ∧
       (∀ v ∈ s.usuarios, v.id < s.nextUsuarioId))) :
    ∃ res s', checkout req ci env s = (.ok res, s') ∧
      (∃ order : Pedido, s'.pedidos = s.pedidos ++ [order] ∧
        order.subtotal = 269 * (req.quantidade : ℚ) ∧
        order.frete = 0 ∧ order.desconto = 0 ∧
        order.total = 269 * (req.quantidade : ℚ) ∧
        order.status = .pendente ∧ order.usuario_id = res.usuario.id ∧
        ∃ item : PedidoItem, s'.pedido_itens = s.pedido_itens ++ [item] ∧
          item.pedido_id = order.id ∧ item.produto_id = produto.id ∧
          item.sku = produto.sku ∧ item.nome = produto.nome ∧
          item.quantidade = req.quantidade ∧ item.preco_unitario = 269 ∧
          item.subtotal = (req.quantidade : ℚ) * 269) ∧
      s'.produtos = s.produtos.map (fun p : Produto =>
        if p.id = produto.id then
          { p with estoque := p.estoque - req.quantidade }
        else p) ∧
      res.total = 269 * (req.quantidade : ℚ) ∧
      ((getUserByEmail s req.email = some res.usuario ∧
        s'.usuarios = s.usuarios) ∨
       (getUserByEmail s req.email = none ∧
        ∃ novo : Usuario, s'.usuarios = s.usuarios ++ [novo] ∧
          res.usuario = novo)) := by
  rcases hident with ⟨u, hu, hcpf⟩ | ⟨hE, hguard, hnext⟩
  · obtain ⟨s', res, hAI, husr, horder, hprods, hru, hrt, -⟩ :=
      afterIdentity_success req ci env s u true (cleanDigits req.cpf)
        (cleanDigits req.cep) produto hq hprod hstock hnum hpid
    obtain ⟨order, ho1, ho2, ho3, ho4, ho5, ho6, ho7, hitem⟩ := horder
    refine ⟨res, s', ?_, ?_, hprods, hrt, Or.inl ⟨?_, husr⟩⟩
    · simp only [checkout, withTransaction, checkoutBody, hu]
      rw [if_pos hcpf, hAI]
    · exact ⟨order, ho1, ho2, ho3, ho4, ho5, ho6,
        by rw [hru]; exact ho7, hitem⟩
    · rw [hru]
      exact hu
  · have hC : getUserByCPF s (cleanDigits req.cpf) = none := by
      unfold getUserByCPF
      rw [List.find?_eq_none]
      intro v hv
      simp [(hguard v hv).2]
    set novoU : Usuario :=
      { id := s.nextUsuarioId, uuid := env.userUuid, nome := trimStr req.nome,
        email := trimStr (toLowerStr req.email), cpf := cleanDigits req.cpf,
        senha_hash := env.senhaHash, telefone := req.telefone,
        deletado_em := none } with hnovoU
    set s2 : DBState := logAudit
      { s with
          usuarios := s.usuarios ++ [novoU],
          nextUsuarioId := s.nextUsuarioId + 1 }
      { tabela := "usuarios", registro_id := some novoU.id, acao := "INSERT",
        dados_anteriores := none,
        dados_novos := some [("nome", req.nome), ("email", req.email),
          ("cpf", cleanDigits req.cpf)],
        usuario_id := none, ip_address := ci.ip, user_agent := ci.userAgent,
        endpoint := some "/api/checkout", metodo_http := some "POST" }
      env.auditUuid1 with hs2
    have hred : checkoutBody req ci env s =
        afterIdentity req ci env s2 novoU false (cleanDigits req.cpf)
          (cleanDigits req.cep) := by
      simp only [checkoutBody, hE, hC, createUser]
      rw [if_pos hguard]
      simp only
      rw [getUserById_append_fresh s novoU hnext rfl rfl]
    have hprod2 : getProductBySku s2 "BLUESHIELD-PRO-001" = some produto := by
      rw [getProductBySku_congr (show s2.produtos = s.produtos from rfl)]
      exact hprod
    have hnum2 : ∀ p ∈ s2.pedidos, p.numero_pedido ≠
        generateOrderNumber env.year env.month env.day env.rand := by
      intro p hp
      exact hnum p hp
    have hpid2 : ∀ p ∈ s2.produtos, ∀ p' ∈ s2.produtos, p.id = p'.id → p = p' := by
      intro p hp p' hp'
      exact hpid p hp p' hp'
    obtain ⟨s', res, hAI, husr, horder, hprods, hru, hrt, -⟩ :=
      afterIdentity_success req ci env s2 novoU false (cleanDigits req.cpf)
        (cleanDigits req.cep) produto hq hprod2 hstock hnum2 hpid2
    obtain ⟨order, ho1, ho2, ho3, ho4, ho5, ho6, ho7, hitem⟩ := horder
    have hped : s'.pedidos = s.pedidos ++ [order] := ho1
    refine ⟨res, s', ?_, ?_, hprods, hrt, Or.inr ⟨hE, novoU, ?_, hru⟩⟩
    · simp only [checkout, withTransaction]
      rw [hred, hAI]
    · refine ⟨order, hped, ho2, ho3, ho4, ho5, ho6,
        by rw [hru]; exact ho7, ?_⟩
      obtain ⟨item, hi1, hirest⟩ := hitem
      exact ⟨item, hi1, hirest⟩
    · exact husr

/-- Counterexample to C1 as stated: the order total does *not* equal the
product's stored unit price times the quantity.  On the seeded database the
product's stored `preco_unitario` is `299.00`, but the checkout route
overrides it in memory with the hard-coded `269.00`
(`produto.preco_unitario = 269.00`), so a successful one-unit checkout
creates an order with `total = 269 ≠ 299 × 1`. -/
theorem checkout_total_not_stored_price :
    ∃ res s', checkout req0 ci0 env0 initState = (.ok res, s') ∧
      (∃ order : Pedido, s'.pedidos = initState.pedidos ++ [order] ∧
        order.total = 269 * ((1 : ℤ) : ℚ)) ∧
      (getProductBySku initState "BLUESHIELD-PRO-001").map
        (fun p => p.preco_unitario) = some 299 ∧
      269 * ((1 : ℤ) : ℚ) ≠ 299 * ((1 : ℤ) : ℚ) := by
  obtain ⟨res, s', hck, ⟨order, ho1, -, -, -, ho5, -⟩, -, -, -⟩ :=
    checkout_success_spec req0 ci0 env0 initState initProduto (by decide)
      (by decide) (by decide) (by decide) (by decide)
      (Or.inr ⟨by decide, by decide, by decide⟩)
  exact ⟨res, s', hck, ⟨order, ho1, ho5⟩, by decide, by norm_num⟩

/-- **C1 (amended).** For every valid checkout input (positive quantity,
product found, fresh order number, id-unique product rows) where the
product has stock `≥ quantity` and the identity step resolves (email hit
with matching cpf, or neither email nor cpf present), the transaction
commits exactly one order, exactly one order item, exactly one stock
decrement by the quantity on exactly the bought product, and exactly one
customer (reused on the email hit, newly created otherwise); the order's
total equals `269.00 × quantity` — the fixed unit price the route applies,
which also becomes the item's snapshot unit price and overrides the
product's stored unit price — with shipping and discount both zero. -/
theorem checkout_creates_one_order (req : CheckoutReq) (ci : ClientInfo)
    (env : CheckoutEnv) (s : DBState) (produto : Produto)
    (hq : 0 < req.quantidade)
    (hprod : getProductBySku s "BLUESHIELD-PRO-001" = some produto)
    (hstock : req.quantidade ≤ produto.estoque)
    (hnum : ∀ p ∈ s.pedidos, p.numero_pedido ≠
      generateOrderNumber env.year env.month env.day env.rand)
    (hpid : ∀ p ∈ s.produtos, ∀ p' ∈ s.produtos, p.id = p'.id → p = p')
    (hident :
      (∃ u, getUserByEmail s req.email = some u ∧
        u.cpf = cleanDigits req.cpf) ∨
      (getUserByEmail s req.email = none ∧
       (∀ v ∈ s.usuarios, v.email ≠ trimStr (toLowerStr req.email) ∧
         v.cpf ≠ cleanDigits req.cpf) ∧
       (∀ v ∈ s.usuarios, v.id < s.nextUsuarioId))) :
    ∃ res s', checkout req ci env s = (.ok res, s') ∧
      (∃ order : Pedido, s'.pedidos = s.pedidos ++ [order] ∧
        order.subtotal = 269 * (req.quantidade : ℚ) ∧
        order.frete = 0 ∧ order.desconto = 0 ∧
        order.total = 269 * (req.quantidade : ℚ) ∧
        order.status = .pendente ∧ order.usuario_id = res.usuario.id ∧
        ∃ item : PedidoItem, s'.pedido_itens = s.pedido_itens ++ [item] ∧
          item.pedido_id = order.id ∧ item.produto_id = produto.id ∧
          item.sku = produto.sku ∧ item.nome = produto.nome ∧
          item.quantidade = req.quantidade ∧ item.preco_unitario = 269 ∧
          item.subtotal = (req.quantidade : ℚ) * 269) ∧
      s'.produtos = s.produtos.map (fun p : Produto =>
        if p.id = produto.id then
          { p with estoque := p.estoque - req.quantidade }
        else p) ∧
      res.total = 269 * (req.quantidade : ℚ) ∧
      ((getUserByEmail s req.email = some res.usuario ∧
        s'.usuarios = s.usuarios) ∨
       (getUserByEmail s req.email = none ∧
        ∃ novo : Usuario, s'.usuarios = s.usuarios ++ [novo] ∧
          res.usuario = novo)) :=
  checkout_success_spec req ci env s produto hq hprod hstock hnum hpid hident

/-- Witness for the amended C1: a fresh customer buys one unit from the
seeded database. -/
theorem checkout_creates_one_order_witness :
    ∃ res s', checkout req0 ci0 env0 initState = (.ok res, s') ∧
      (∃ order : Pedido, s'.pedidos = initState.pedidos ++ [order] ∧
        order.subtotal = 269 * ((req0.quantidade : ℤ) : ℚ) ∧
        order.frete = 0 ∧ order.desconto = 0 ∧
        order.total = 269 * ((req0.quantidade : ℤ) : ℚ) ∧
        order.status = .pendente ∧ order.usuario_id = res.usuario.id ∧
        ∃ item : PedidoItem,
          s'.pedido_itens = initState.pedido_itens ++ [item] ∧
          item.pedido_id = order.id ∧ item.produto_id = initProduto.id ∧
          item.sku = initProduto.sku ∧ item.nome = initProduto.nome ∧
          item.quantidade = req0.quantidade ∧ item.preco_unitario = 269 ∧
          item.subtotal = ((req0.quantidade : ℤ) : ℚ) * 269) ∧
      s'.produtos = initState.produtos.map (fun p : Produto =>
        if p.id = initProduto.id then
          { p with estoque := p.estoque - req0.quantidade }
        else p) ∧
      res.total = 269 * ((req0.quantidade : ℤ) : ℚ) ∧
      ((getUserByEmail initState req0.email = some res.usuario ∧
        s'.usuarios = initState.usuarios) ∨
       (getUserByEmail initState req0.email = none ∧
        ∃ novo : Usuario,
          s'.usuarios = initState.usuarios ++ [novo] ∧
          res.usuario = novo)) :=
  checkout_creates_one_order req0 ci0 env0 initState initProduto (by decide)
    (by decide) (by decide) (by decide) (by decide)
    (Or.inr ⟨by decide, by decide, by decide⟩)

end BlueShield
